import Mathlib

/-!
Shallow embedding of `src/app.py` (CRUSH Sales Call Coach, a Streamlit app).

The app has three relevant pieces:
* `CRUSH_SYSTEM_INSTRUCTION` (app.py lines 9-54): a fixed instruction template,
  a Python plain (non-f) triple-quoted string containing the literal tokens
  `{stage}`, `{rubie_role}`, `{raid_role}`, which the program never formats.
* `get_model` (lines 69-98): walks a hardcoded candidate list, trying to
  initialize each model first WITH a system instruction, then WITHOUT; it
  returns the first success together with a capability flag, and when every
  attempt fails it shows an error and halts the script (`st.stop`).
  The external library's behaviour is modelled by an oracle
  `ok : String → Bool → Bool`: `ok name true` says initialization of `name`
  with a system instruction succeeds, `ok name false` says initialization
  without one succeeds.  `none` models the error-and-halt path.
* the run-button handler (lines 151-198): guards on an empty draft, resolves
  a model, builds `final_prompt` (two f-string shapes, lines 164-187),
  performs exactly one generation call, and wraps any failure in the message
  prefix "An unexpected error occurred: ".
-/

namespace CrushApp

/-- The instruction template, app.py lines 9-54, transcribed byte for byte
(one Lean literal per source line, each ending in the newline of that line;
the Python `"""` on line 9 makes the string start with a newline).  The
braces of the three placeholder tokens are written with `\x7b`/`\x7d`
escapes and ASCII apostrophes with `\x27`. -/
def CRUSH_SYSTEM_INSTRUCTION : String :=
  "\n" ++
  "You are an expert Sales Coach specialized in the **CRUSH Methodology**.\n" ++
  "Your goal is to coach a salesperson to prepare for a specific interaction. \n" ++
  "You must critique their plan based on **Adoption Risk** (Fear of the Future), not just \"Pain\" (The Past).\n" ++
  "\n" ++
  "### THE LOGIC (Use this strictly):\n" ++
  "\n" ++
  "**1. THE PROXIMITY TRAP (The Opener)**\n" ++
  "* **Rule:** \"Just checking in\" or \"Hope you are well\" is **Level 4 Proximity (Cliché)**. It triggers a cortisol (threat) response.\n" ++
  "* **Action:** If the user\x27s draft includes clichés, REJECT it. Demand **Level 2 (Transferred)** or **Level 3 (Related)** context.\n" ++
  "\n" ++
  "**2. THE PAIN TRAP (CDM Context)**\n" ++
  "* **Rule:** In CDM Stages 0-1, \"Pain\" drives the look. But in **Stages 2-5**, \"Adoption Risk\" drives the stall.\n" ++
  "* **Action:** If the CDM Stage is 2 (Selected) or higher, and the user is still talking about \"Business Pain,\" WARN THEM. They should be talking about **Usage, Support, and Harmonization**.\n" ++
  "\n" ++
  "**3. THE PERSON TRAP (RAID & RUBIE)**\n" ++
  "* **Rule:** You cannot solve a \"Person Fear\" with a \"Company Goal.\"\n" ++
  "* **RAID:**\n" ++
  "    * *Recommender:* Needs ammunition to sell internally.\n" ++
  "    * *Agree’er:* Needs risk mitigation (Veto power).\n" ++
  "    * *Informer:* Needs technical accuracy.\n" ++
  "    * *Decision Maker:* Needs accountability protection.\n" ++
  "* **RUBIE (The POV):**\n" ++
  "    * *User:* Fears friction/difficulty.\n" ++
  "    * *Implementor:* Fears complexity/failure.\n" ++
  "    * *Economic Buyer:* Fears financial loss/ROI.\n" ++
  "* **Action:** Ensure the talking points match the specific **RUBIE** fear. (e.g., Don\x27t sell ROI to an Implementor).\n" ++
  "\n" ++
  "### YOUR OUTPUT FORMAT:\n" ++
  "\n" ++
  "**1. 🛡️ Diagnosis & Trap Check**\n" ++
  "* **Proximity Check:** (Pass/Fail) - Did they use a cliché?\n" ++
  "* **Focus Check:** (Pain vs. Adoption Risk) - Are they solving the right problem for CDM Stage \x7bstage\x7d?\n" ++
  "* **Empathy Check:** Are they addressing the \x7brubie_role\x7d\x27s specific fear, or just pitching features?\n" ++
  "\n" ++
  "**2. 🦁 The CRUSH Rewrite**\n" ++
  "* Rewrite the Opening/Talking Points to be:\n" ++
  "    * **Low Risk:** (Address Support/Harmonization).\n" ++
  "    * **High Context:** (Level 2/3 Proximity).\n" ++
  "    * **Decision-Oriented:** Move to the next Decision Boundary.\n" ++
  "\n" ++
  "**3. ❓ The Golden Questions**\n" ++
  "* Provide 3 distinct questions to ask this specific person (Role: \x7braid_role\x7d, POV: \x7brubie_role\x7d) to uncover their hidden Adoption Risk.\n" ++
  "\n" ++
  "Tone: Direct, coaching, authoritative. No fluff.\n"

/-- The hardcoded candidate list of `get_model`, app.py lines 75-81. -/
def models_to_try : List String :=
  ["gemini-1.5-flash",
   "gemini-1.5-flash-latest",
   "gemini-1.5-pro",
   "gemini-1.5-pro-latest",
   "gemini-pro"]

/-- The `for model_name in models_to_try` loop of `get_model`, app.py lines
83-94: for each candidate, first try to initialize WITH a system instruction
(success ↦ flag `true`), else try WITHOUT one (success ↦ flag `false`),
else continue with the next candidate.  The environment oracle `ok name m`
tells whether `genai.GenerativeModel` succeeds for `name` in mode `m`
(`m = true` meaning "with system_instruction").  An exhausted list models
app.py lines 96-98: `st.error(...)` followed by `st.stop()`. -/
def tryModels (ok : String → Bool → Bool) : List String → Option (String × Bool)
  | [] => none
  | n :: rest =>
    if ok n true then some (n, true)
    else if ok n false then some (n, false)
    else tryModels ok rest

/-- `get_model`, app.py lines 69-98, as a function of the environment
oracle.  `some (name, flag)` is the `return model, model_name, flag` path;
`none` is the error-and-halt path of lines 96-98. -/
def get_model (ok : String → Bool → Bool) : Option (String × Bool) :=
  tryModels ok models_to_try

/-- Selection characterization: the loop returns the first candidate for
which either initialization mode succeeds, with the flag recording whether
the with-system-instruction attempt was the one that succeeded. -/
theorem tryModels_eq_find (ok : String → Bool → Bool) :
    ∀ l : List String,
      tryModels ok l =
        (l.find? (fun n => ok n true || ok n false)).map (fun n => (n, ok n true)) := by
  intro l
  induction l with
  | nil => rfl
  | cons m rest ih =>
    cases h1 : ok m true with
    | true => simp [tryModels, List.find?, h1]
    | false =>
      cases h2 : ok m false with
      | true => simp [tryModels, List.find?, h1, h2]
      | false => simp [tryModels, List.find?, h1, h2, ih]

/-- When some candidate succeeds in some mode, the loop returns a pair. -/
theorem tryModels_some_of_success (ok : String → Bool → Bool) :
    ∀ l : List String, (∃ n ∈ l, ok n true = true ∨ ok n false = true) →
      ∃ p, tryModels ok l = some p := by
  intro l
  induction l with
  | nil => rintro ⟨n, hn, -⟩; cases hn
  | cons m rest ih =>
    rintro ⟨n, hn, hok⟩
    cases h1 : ok m true with
    | true => exact ⟨(m, true), by simp [tryModels, h1]⟩
    | false =>
      cases h2 : ok m false with
      | true => exact ⟨(m, false), by simp [tryModels, h1, h2]⟩
      | false =>
        rcases List.mem_cons.mp hn with rfl | hmem
        · rcases hok with h | h
          · rw [h1] at h; cases h
          · rw [h2] at h; cases h
        · rcases ih ⟨n, hmem, hok⟩ with ⟨p, hp⟩
          exact ⟨p, by simp [tryModels, h1, h2, hp]⟩

/-- The leading piece of the capability-false f-string, app.py lines
174-176: the newline after the opening `"""`, the `SYSTEM INSTRUCTION:`
header line, and the 20 spaces of indentation preceding the interpolated
`{CRUSH_SYSTEM_INSTRUCTION}` on line 176. -/
def sys_header : String :=
  "\n                    SYSTEM INSTRUCTION:\n                    "

/-- The piece of the capability-false f-string between the interpolated
template and the `CONTEXT:` line, app.py lines 176-179: the newline ending
line 176, the 20-space line 177, and the `USER TASK:` /
`Analyze this scenario:` lines. -/
def task_marker : String :=
  "\n                    \n                    USER TASK:\n                    Analyze this scenario:\n"

/-- The context-restatement block shared by both f-strings, app.py lines
165-168 and 180-183: the `CONTEXT:` line and the three interpolated field
lines (each f-string line is indented by 20 spaces). -/
def context_restatement (cdm_stage raid_role rubie_role : String) : String :=
  "                    CONTEXT:\n                    - CDM Stage: " ++ cdm_stage ++
  "\n                    - RAID Role: " ++ raid_role ++
  "\n                    - RUBIE POV: " ++ rubie_role ++ "\n"

/-- The trailing piece of both f-strings, app.py lines 169-172 and 184-187:
the 20-space separator line, the `USER DRAFT:` line, the interpolated draft,
and the 20 spaces preceding the closing `"""`. -/
def user_draft_block (user_draft : String) : String :=
  "                    \n                    USER DRAFT:\n                    " ++ user_draft ++
  "\n                    "

/-- `final_prompt`, app.py lines 163-187: the two f-string shapes, chosen by
`supports_sys_inst`.  The capability-true shape (lines 164-172) is the
newline after `"""` followed by the context restatement and the draft
block; the capability-false shape (lines 174-187) prepends the
`SYSTEM INSTRUCTION:` header, the template itself, and the `USER TASK:`
marker to the same restatement and draft block. -/
def final_prompt (supports_sys_inst : Bool)
    (cdm_stage raid_role rubie_role user_draft : String) : String :=
  if supports_sys_inst then
    "\n" ++ context_restatement cdm_stage raid_role rubie_role ++ user_draft_block user_draft
  else
    sys_header ++ CRUSH_SYSTEM_INSTRUCTION ++ task_marker ++
      context_restatement cdm_stage raid_role rubie_role ++ user_draft_block user_draft

/-- The request as it reaches the generation call: the system-instruction
slot is populated at model construction (app.py line 86,
`genai.GenerativeModel(model_name, system_instruction=...)`) only in the
capability-true case (line 91 constructs the model without one), and the
message is the `final_prompt` passed to `generate_content` (line 190). -/
structure RequestPayload where
  system_instruction : Option String
  message : String
deriving DecidableEq, Repr

/-- Payload assembly for one run, app.py lines 86/91 and 163-190: the slot
carries the template exactly when the capability flag is true, and the
message is `final_prompt` for that flag. -/
def build_payload (supports_sys_inst : Bool)
    (cdm_stage raid_role rubie_role user_draft : String) : RequestPayload :=
  { system_instruction :=
      if supports_sys_inst then some CRUSH_SYSTEM_INSTRUCTION else none
    message := final_prompt supports_sys_inst cdm_stage raid_role rubie_role user_draft }

/-- The selectbox options for `cdm_stage`, app.py lines 113-121: the closed
set of CDM-stage values the UI offers. -/
def cdm_stage_options : List String :=
  ["0 - Need (Latent Pain)",
   "1 - Sourcing (Evaluating Options)",
   "2 - Selected (Vendor Chosen)",
   "3 - Ordered (Commercials)",
   "4 - Usage (Implementation)",
   "5 - Adoption (Value Realized)",
   "6 - Assess (Renewal/Pivot)"]

/-- The selectbox options for `raid_role`, app.py line 128. -/
def raid_role_options : List String :=
  ["Recommender (Driver)", "Agree’er (Veto Power)", "Informer (Expert)",
   "Decision Maker (Signer)"]

/-- The selectbox options for `rubie_role`, app.py line 134. -/
def rubie_role_options : List String :=
  ["User (Usability)", "Implementor (Feasibility)", "Benefactor (Outcomes)",
   "Economic Buyer (ROI)", "Ripple (Impacted)"]

/-- Error taxonomy the specification ascribes to assembly.  Modelled from
the spec: neither error is defined anywhere in app.py; the type exists only
so that the claim of the spec about assembly failing can be stated against
the actual (never-failing) assembly of the code. -/
inductive AssembleError where
  | templateBindingError
  | invalidEnumValueError
deriving DecidableEq, Repr

/-- Assembly viewed as a fallible operation.  The computation of
`final_prompt` in app.py lines 163-187 is straight-line f-string
interpolation over in-scope variables with no validation and no raise
statement, so the embedding is total: it returns `Except.ok` on every
input. -/
def assemble_result (supports_sys_inst : Bool)
    (cdm_stage raid_role rubie_role user_draft : String) :
    Except AssembleError RequestPayload :=
  Except.ok (build_payload supports_sys_inst cdm_stage raid_role rubie_role user_draft)

/-- What the run-button handler leaves on the page, app.py lines 151-198. -/
inductive UIOutput where
  /-- An `st.error(text)` box (lines 153 and 198). -/
  | errorMsg (text : String)
  /-- The rendered result: caption `🧠 Connected via: model_name` and the
  generated text (lines 193-195). -/
  | rendered (model_name : String) (text : String)
  /-- The `st.error` + `st.stop` path inside `get_model` (lines 96-98). -/
  | halted (text : String)
deriving DecidableEq, Repr

/-- Observable effects of one press of the run button: the page output,
how many times `get_model` ran, how many `generate_content` calls were
made, and the prompt payload string constructed (if any). -/
structure RunTrace where
  output : UIOutput
  resolver_calls : Nat
  generate_calls : Nat
  payload : Option String
deriving DecidableEq, Repr

/-- The run-button handler, app.py lines 151-198.  `ok` is the model
initialization oracle fed to `get_model` and `gen model_name prompt` is the
outcome of `model.generate_content(final_prompt)` (line 190), `Except.error`
carrying the text of the raised exception.  The `if not user_draft` guard
(line 152) is the empty-string test, and the `except` arm (lines 197-198)
wraps the exception text in the prefix of line 198. -/
def run_handler (user_draft : String) (ok : String → Bool → Bool)
    (cdm_stage raid_role rubie_role : String)
    (gen : String → String → Except String String) : RunTrace :=
  if user_draft = "" then
    { output := UIOutput.errorMsg "Please enter a draft first."
      resolver_calls := 0, generate_calls := 0, payload := none }
  else
    match get_model ok with
    | none =>
      { output := UIOutput.halted
          "Could not connect to any Google Gemini model. Please check your API Key."
        resolver_calls := 1, generate_calls := 0, payload := none }
    | some (model_name, supports_sys_inst) =>
      let fp := final_prompt supports_sys_inst cdm_stage raid_role rubie_role user_draft
      match gen model_name fp with
      | Except.ok text =>
        { output := UIOutput.rendered model_name text
          resolver_calls := 1, generate_calls := 1, payload := some fp }
      | Except.error e =>
        { output := UIOutput.errorMsg ("An unexpected error occurred: " ++ e)
          resolver_calls := 1, generate_calls := 1, payload := some fp }

/-- The per-run state the handler reads, including data that must NOT
influence the payload (the credential and the selected model identifier). -/
structure AppState where
  api_key : String
  model_name : String
  supports_sys_inst : Bool
  cdm_stage : String
  raid_role : String
  rubie_role : String
  user_draft : String

/-- Payload assembly as a reading of the app state. -/
def assemble_payload (s : AppState) : RequestPayload :=
  build_payload s.supports_sys_inst s.cdm_stage s.raid_role s.rubie_role s.user_draft

/-- Decides whether the character list `pat` occurs at the head of the
second list. -/
def matchesAt : List Char → List Char → Bool
  | [], _ => true
  | _ :: _, [] => false
  | p :: ps, c :: cs => p == c && matchesAt ps cs

/-- Decides whether `pat` occurs as a contiguous run anywhere in the list. -/
def hasSub (pat : List Char) : List Char → Bool
  | [] => matchesAt pat []
  | c :: cs => matchesAt pat (c :: cs) || hasSub pat cs

/-- Substring test on strings, used to state containment facts about the
delivered prompt texts. -/
def strContains (s pat : String) : Bool :=
  hasSub pat.data s.data

theorem matchesAt_self_append (p ys : List Char) : matchesAt p (p ++ ys) = true := by
  induction p with
  | nil => rfl
  | cons c cs ih => simp [matchesAt, ih]

theorem hasSub_of_matchesAt (p : List Char) :
    ∀ l : List Char, matchesAt p l = true → hasSub p l = true := by
  intro l h
  cases l with
  | nil => exact h
  | cons c cs => simp [hasSub, h]

theorem hasSub_mid (p xs ys : List Char) : hasSub p (xs ++ (p ++ ys)) = true := by
  induction xs with
  | nil => exact hasSub_of_matchesAt p (p ++ ys) (matchesAt_self_append p ys)
  | cons c cs ih => simp [hasSub, ih]

/-- A string built with `b` as one of its concatenands contains `b`. -/
theorem strContains_mid (a b c : String) : strContains (a ++ b ++ c) b = true := by
  have hdata : (a ++ b ++ c).data = a.data ++ (b.data ++ c.data) := by
    simp [String.data_append]
  simp only [strContains, hdata]
  exact hasSub_mid b.data a.data c.data

/-! Claim theorems. -/

set_option maxRecDepth 40000

/-- C1 counterexample: at a concrete call context the delivered instruction
(the system-instruction slot of the capability-true payload, and the same
template inlined in the capability-false message) still contains the
unbound placeholder token `\x7bstage\x7d`, refuting the claim that every named
placeholder is substituted and that the delivered instruction contains no
unbound placeholder token. -/
theorem C1_counterexample :
    (build_payload true "2 - Selected (Vendor Chosen)" "Informer (Expert)"
        "User (Usability)" "Hi Sarah, just checking in.").system_instruction =
      some CRUSH_SYSTEM_INSTRUCTION ∧
    strContains CRUSH_SYSTEM_INSTRUCTION "\x7bstage\x7d" = true ∧
    strContains (build_payload false "2 - Selected (Vendor Chosen)" "Informer (Expert)"
        "User (Usability)" "Hi Sarah, just checking in.").message "\x7bstage\x7d" = true := by
  refine ⟨rfl, by decide, by decide⟩

/-- C1 (amended): the program performs no placeholder substitution; the
instruction template is delivered verbatim in both capability branches (as
the system-instruction slot when the flag is true, inlined in the single
message when it is false), still containing the unbound token `\x7bstage\x7d`;
the bound context values travel separately in the context restatement. -/
theorem C1_template_delivered_verbatim (s r u d : String) :
    (build_payload true s r u d).system_instruction = some CRUSH_SYSTEM_INSTRUCTION ∧
    strContains (build_payload false s r u d).message CRUSH_SYSTEM_INSTRUCTION = true ∧
    strContains CRUSH_SYSTEM_INSTRUCTION "\x7bstage\x7d" = true := by
  refine ⟨rfl, ?_, by decide⟩
  show strContains (final_prompt false s r u d) CRUSH_SYSTEM_INSTRUCTION = true
  have h : final_prompt false s r u d =
      sys_header ++ CRUSH_SYSTEM_INSTRUCTION ++
        (task_marker ++ (context_restatement s r u ++ user_draft_block d)) := by
    simp [final_prompt, String.append_assoc]
  rw [h]
  exact strContains_mid sys_header CRUSH_SYSTEM_INSTRUCTION
    (task_marker ++ (context_restatement s r u ++ user_draft_block d))

/-- C2 counterexample: in an environment where every candidate fails in
both initialization modes, `get_model` takes the `st.error` + `st.stop`
path (modelled by `none`): it aborts instead of returning a fallback
(identifier, capability) pair, refuting "never raises or aborts". -/
theorem C2_counterexample : get_model (fun _ _ => false) = none := rfl

/-- C2 (amended): `get_model` returns an (identifier, capability) pair
whenever at least one candidate initialization succeeds in either mode;
only when every candidate fails in both modes does it abort. -/
theorem C2_resolver_returns_on_any_success (ok : String → Bool → Bool)
    (h : ∃ n ∈ models_to_try, ok n true = true ∨ ok n false = true) :
    ∃ p, get_model ok = some p :=
  tryModels_some_of_success ok models_to_try h

/-- C2 witness: in an all-succeeding environment the resolver returns a pair. -/
theorem C2_witness : ∃ p, get_model (fun _ _ => true) = some p :=
  C2_resolver_returns_on_any_success (fun _ _ => true)
    ⟨"gemini-1.5-flash", by simp [models_to_try], Or.inl rfl⟩

/-- C3 counterexample: two environments in which `get_model` selects the
same identifier but returns different capability flags — one where
initialization with a system instruction succeeds, one where only the
legacy initialization does — refuting that the flag is a function of the
selected identifier string. -/
theorem C3_counterexample :
    get_model (fun _ _ => true) = some ("gemini-1.5-flash", true) ∧
    get_model (fun _ m => !m) = some ("gemini-1.5-flash", false) :=
  ⟨rfl, rfl⟩

/-- C3 (amended): the capability flag records whether the
with-system-instruction initialization of the selected identifier succeeded
in the current environment; it is a function of the (identifier,
environment) pair, not of the identifier alone. -/
theorem C3_flag_records_sysinst_success (ok : String → Bool → Bool)
    (n : String) (f : Bool) (h : get_model ok = some (n, f)) : f = ok n true := by
  rw [get_model, tryModels_eq_find] at h
  rcases Option.map_eq_some'.mp h with ⟨m, hm, heq⟩
  rcases Prod.mk.injEq .. ▸ heq with ⟨h1, h2⟩
  subst h1
  exact h2.symm

/-- C3 witness: instantiating the amended theorem in an environment where
with-system-instruction initialization always succeeds. -/
theorem C3_witness :
    true = (fun (_ : String) (m : Bool) => m) "gemini-1.5-flash" true :=
  C3_flag_records_sysinst_success (fun _ m => m) "gemini-1.5-flash" true rfl

/-- C4 counterexample: when no candidate matches (no initialization
succeeds), `get_model` does not return the designated default identifier
`gemini-pro` — it aborts, refuting the claimed default fallback. -/
theorem C4_counterexample :
    get_model (fun _ _ => false) = none ∧
    get_model (fun _ _ => false) ≠ some ("gemini-pro", true) ∧
    get_model (fun _ _ => false) ≠ some ("gemini-pro", false) := by
  refine ⟨rfl, by decide, by decide⟩

/-- C4 (amended): `get_model` performs no discovery query and no substring
matching; it walks the fixed candidate list in order and returns the first
identifier for which an initialization attempt succeeds (flag true exactly
when the with-system-instruction attempt succeeded), and yields nothing —
aborting — when no candidate succeeds. -/
theorem C4_first_success_selection (ok : String → Bool → Bool) :
    get_model ok =
      (models_to_try.find? (fun n => ok n true || ok n false)).map
        (fun n => (n, ok n true)) :=
  tryModels_eq_find ok models_to_try

/-- C5 counterexample: at a concrete context the capability-false combined
message contains the raw token `for CDM Stage \x7bstage\x7d?` and does not
contain its instantiated form, refuting that the combined message consists
of the fully instantiated instruction text followed by the delimiter and
the restatement. -/
theorem C5_counterexample :
    strContains (final_prompt false "2 - Selected (Vendor Chosen)" "Informer (Expert)"
        "User (Usability)" "Hi Sarah, just checking in.")
      "for CDM Stage \x7bstage\x7d?" = true ∧
    strContains (final_prompt false "2 - Selected (Vendor Chosen)" "Informer (Expert)"
        "User (Usability)" "Hi Sarah, just checking in.")
      "for CDM Stage 2 - Selected (Vendor Chosen)?" = false := by
  refine ⟨by decide, by decide⟩

/-- C5 (amended): when the capability flag is false the single combined
message is exactly the `SYSTEM INSTRUCTION:` channel header, the template
text verbatim (placeholders unsubstituted), the `USER TASK:` /
`Analyze this scenario:` task marker, the context restatement, and the
user-draft block, concatenated in that fixed order. -/
theorem C5_combined_order (s r u d : String) :
    final_prompt false s r u d =
      sys_header ++ CRUSH_SYSTEM_INSTRUCTION ++ task_marker ++
        context_restatement s r u ++ user_draft_block d :=
  rfl

/-- C6 counterexample: the system-instruction slot carries the raw
template — it still contains `the \x7brubie_role\x7d's specific fear` and not the
instantiated `the User (Usability)'s specific fear` — refuting that the
instantiated instruction text is the content of the slot. -/
theorem C6_counterexample :
    (build_payload true "2 - Selected (Vendor Chosen)" "Informer (Expert)"
        "User (Usability)" "Hi Sarah, just checking in.").system_instruction =
      some CRUSH_SYSTEM_INSTRUCTION ∧
    strContains CRUSH_SYSTEM_INSTRUCTION
      "the \x7brubie_role\x7d\x27s specific fear" = true ∧
    strContains CRUSH_SYSTEM_INSTRUCTION
      "the User (Usability)\x27s specific fear" = false := by
  refine ⟨rfl, by decide, by decide⟩

/-- C6 (amended): when the capability flag is true the template text
(placeholders unsubstituted) is carried in the system-instruction slot and
the user message consists solely of the context restatement and the
user-draft block; at a representative context the assembled user message
does not contain the instruction text (assembly adds no copy of it — only
an adversarial draft could smuggle one in). -/
theorem C6_channel_separation (s r u d : String) :
    (build_payload true s r u d).system_instruction = some CRUSH_SYSTEM_INSTRUCTION ∧
    (build_payload true s r u d).message =
      "\n" ++ context_restatement s r u ++ user_draft_block d ∧
    strContains ("\n" ++ context_restatement "2 - Selected (Vendor Chosen)"
        "Informer (Expert)" "User (Usability)" ++
        user_draft_block "Hi Sarah, just checking in.")
      CRUSH_SYSTEM_INSTRUCTION = false := by
  refine ⟨rfl, rfl, by decide⟩

/-- C7: when the generation call raises, the handler surfaces the failure
as a visible error wrapped with the stable prefix
`An unexpected error occurred: ` carrying the exception text, abandons the
action (no rendered output), and performs exactly one generation call — no
internal retry. -/
theorem C7_generation_failure_surfaced (d : String) (ok : String → Bool → Bool)
    (s r u : String) (gen : String → String → Except String String)
    (name : String) (flag : Bool) (e : String)
    (hne : d ≠ "") (hget : get_model ok = some (name, flag))
    (hgen : gen name (final_prompt flag s r u d) = Except.error e) :
    run_handler d ok s r u gen =
      { output := UIOutput.errorMsg ("An unexpected error occurred: " ++ e)
        resolver_calls := 1, generate_calls := 1
        payload := some (final_prompt flag s r u d) } := by
  unfold run_handler
  rw [if_neg hne, hget]
  simp only [hgen]

/-- C7 witness: a concrete run in which the generation call fails with
exception text `boom`. -/
theorem C7_witness :
    run_handler "Hi" (fun _ _ => true) "a" "b" "c" (fun _ _ => Except.error "boom") =
      { output := UIOutput.errorMsg ("An unexpected error occurred: " ++ "boom")
        resolver_calls := 1, generate_calls := 1
        payload := some (final_prompt true "a" "b" "c" "Hi") } :=
  C7_generation_failure_surfaced "Hi" (fun _ _ => true) "a" "b" "c"
    (fun _ _ => Except.error "boom") "gemini-1.5-flash" true "boom"
    (by decide) rfl rfl

/-- C8: payload assembly reads nothing but the capability flag and the four
context fields — two app states agreeing on those yield identical payloads
even when credential and selected-identifier state differ; the embedding is
a pure function, so the same inputs always produce the same payload and
neither the context nor the template is mutated. -/
theorem C8_payload_no_hidden_state (s1 s2 : AppState)
    (hcap : s1.supports_sys_inst = s2.supports_sys_inst)
    (hst : s1.cdm_stage = s2.cdm_stage) (hra : s1.raid_role = s2.raid_role)
    (hru : s1.rubie_role = s2.rubie_role) (hdr : s1.user_draft = s2.user_draft) :
    assemble_payload s1 = assemble_payload s2 := by
  unfold assemble_payload
  rw [hcap, hst, hra, hru, hdr]

/-- C8 witness: two states differing only in the credential and the model
identifier produce the same payload. -/
theorem C8_witness :
    assemble_payload ⟨"key-one", "model-one", true, "s", "r", "u", "d"⟩ =
      assemble_payload ⟨"key-two", "model-two", true, "s", "r", "u", "d"⟩ :=
  C8_payload_no_hidden_state _ _ rfl rfl rfl rfl rfl

/-- C9 counterexample: `7 - Bogus` lies outside the declared closed set of
CDM-stage values, yet assembly succeeds on it and in particular does not
fail with `invalidEnumValueError`, refuting that assembly fails exactly
when an enum value is outside its declared set. -/
theorem C9_counterexample :
    ¬ ("7 - Bogus" ∈ cdm_stage_options) ∧
    assemble_result false "7 - Bogus" "Informer (Expert)" "User (Usability)" "Hi." =
      Except.ok (build_payload false "7 - Bogus" "Informer (Expert)"
        "User (Usability)" "Hi.") ∧
    assemble_result false "7 - Bogus" "Informer (Expert)" "User (Usability)" "Hi." ≠
      Except.error AssembleError.invalidEnumValueError := by
  refine ⟨by decide, rfl, by simp [assemble_result]⟩

/-- C9 (amended): assembly never fails — app.py defines neither
`TemplateBindingError` nor `InvalidEnumValueError` and validates neither
placeholder bindings nor enum membership; it produces a payload for every
input, leaving template placeholders unbound rather than failing. -/
theorem C9_assembly_never_fails (flag : Bool) (s r u d : String) (e : AssembleError) :
    assemble_result flag s r u d ≠ Except.error e := by
  simp [assemble_result]

/-- C10: pressing the run button with an empty draft shows the error
`Please enter a draft first.` and performs no model resolution, no
generation call, and builds no payload. -/
theorem C10_empty_draft_guard (ok : String → Bool → Bool) (s r u : String)
    (gen : String → String → Except String String) :
    run_handler "" ok s r u gen =
      { output := UIOutput.errorMsg "Please enter a draft first."
        resolver_calls := 0, generate_calls := 0, payload := none } :=
  rfl

end CrushApp
